import Mathlib

/-!
Shallow embedding of the Cimpress `stereotype-client` JavaScript library
(`src/stereotype_client.js`), used to verify the natural-language
specification of the library against its code.

JavaScript strings are modelled by Lean `String`/`List Char`; JavaScript
values that may be a boolean, a string or `undefined` are modelled by the
inductive type `JsVal`; fallible code paths (synchronous throws and
pre-network promise rejections) are modelled with `Except`; an operation
is modelled as a *plan* that either fails locally (no network request) or
produces the HTTP request(s) the code would issue.
-/

namespace Stereotype

/-! ## JavaScript primitives -/

/-- A JavaScript value that is a boolean, a string, or `undefined`
(the three shapes relevant to the flags of this client). -/
inductive JsVal where
  | undefined
  | bool (b : Bool)
  | str (s : String)
  deriving DecidableEq, Repr

/-- JavaScript truthiness for `JsVal`: `undefined` and `""` and `false`
are falsy, everything else truthy. -/
def JsVal.truthy : JsVal → Bool
  | .undefined => false
  | .bool b => b
  | .str s => s ≠ ""

/-- JavaScript `toString()` on a `JsVal`. -/
def JsVal.toStr : JsVal → String
  | .undefined => "undefined"
  | .bool true => "true"
  | .bool false => "false"
  | .str s => s

/-- JavaScript `a && b` on `JsVal`s: returns `a` when `a` is falsy,
otherwise `b`. -/
def jsAnd (a b : JsVal) : JsVal :=
  if a.truthy then b else a

/-- JavaScript default-parameter application: `undefined` is replaced by
the declared default, any other value is kept. -/
def jsDefault (v d : JsVal) : JsVal :=
  match v with
  | .undefined => d
  | x => x

/-- JavaScript `String.split(sep)` for a one-character separator,
on the underlying character list.  `split` of an empty string yields
`[""]`, exactly as in JavaScript. -/
def splitChars (sep : Char) : List Char → List (List Char)
  | [] => [[]]
  | c :: cs =>
    if c = sep then
      [] :: splitChars sep cs
    else
      match splitChars sep cs with
      | [] => [[c]]
      | p :: ps => (c :: p) :: ps

/-- JavaScript `String.split(sep)` for a one-character separator. -/
def jsSplit (sep : Char) (s : String) : List String :=
  (splitChars sep s.data).map (fun l => String.mk l)

/-- JavaScript `String.substring(n)` for a non-negative start index. -/
def jsSubstring (s : String) (n : Nat) : String :=
  String.mk (s.data.drop n)

/-- JavaScript `String.includes(sub)` on character lists. -/
def containsSub (sub : List Char) : List Char → Bool
  | [] => sub.isEmpty
  | c :: cs => sub.isPrefixOf (c :: cs) || containsSub sub cs

/-- JavaScript `String.includes(sub)`. -/
def jsIncludes (s sub : String) : Bool :=
  containsSub sub.data s.data

/-- JavaScript `String.toLowerCase()` (ASCII range, which covers every
string this client lowercases). -/
def jsToLower (s : String) : String :=
  String.mk (s.data.map Char.toLower)

/-- JavaScript `String.trim()`: whitespace removed from both ends. -/
def jsTrim (s : String) : String :=
  String.mk (((s.data.dropWhile Char.isWhitespace).reverse.dropWhile
    Char.isWhitespace).reverse)

/-! ## Constructor and configuration (`StereotypeClient.constructor`) -/

/-- The fixed defaults `defaultConf` of the library. -/
structure DefaultConf where
  baseUrl : String
  timeout : Nat
  deadline : Nat
  numRetries : Nat

/-- The table `defaultConf` from the source. -/
def defaultConf : DefaultConf :=
  ⟨"https://stereotype.trdlnk.cimpress.io", 5000, 60000, 3⟩

/-- The options object passed to the constructor.  A field that the
caller omitted is `none`; a field that was passed (possibly with a falsy
value such as `0` or `""`) is `some v`. -/
structure RawOptions where
  baseUrl : Option String
  timeout : Option Nat
  deadline : Option Nat
  numRetries : Option Nat
  isBinaryResponse : Option Bool
  deriving DecidableEq, Repr

/-- The options object `{}` with every field missing. -/
def RawOptions.empty : RawOptions :=
  ⟨none, none, none, none, none⟩

/-- JavaScript `options.field || default` for a string-valued option:
a missing or empty string falls back to the default. -/
def jsOrStr (v : Option String) (d : String) : String :=
  match v with
  | some s => if s ≠ "" then s else d
  | none => d

/-- JavaScript `options.field || default` for a number-valued option:
a missing field or the number `0` falls back to the default. -/
def jsOrNat (v : Option Nat) (d : Nat) : Nat :=
  match v with
  | some n => if n ≠ 0 then n else d
  | none => d

/-- JavaScript `options.isBinaryResponse || false`. -/
def jsOrFalse (v : Option Bool) : Bool :=
  match v with
  | some b => b
  | none => false

/-- Embeds `this.accessToken.substring(this.accessToken.indexOf(' ') + 1)`:
`some rest` when a space was found (the characters after the first
space), `none` when the string has no space. -/
def dropThroughFirstSpace : List Char → Option (List Char)
  | [] => none
  | c :: cs => if c = ' ' then some cs else dropThroughFirstSpace cs

/-- Strips any token prefix, e.g. `'Bearer '`: the suffix after the
first space, or the whole string when it contains no space (modelling
`substring(indexOf(' ') + 1)`, where `indexOf` returns `-1` on a
miss). -/
def stripSchemeToken (s : String) : String :=
  match dropThroughFirstSpace s.data with
  | some rest => String.mk rest
  | none => s

/-- Trailing-slash trimming of the base URL from the constructor:
`if (baseUrl[len-1] === '/') baseUrl = baseUrl.slice(0, -1)`. -/
def trimTrailingSlash (s : String) : String :=
  if s.data.getLast? = some '/' then String.mk s.data.dropLast else s

/-- The client configuration stored by the constructor. -/
structure Config where
  accessToken : String
  baseUrl : String
  timeout : Nat
  deadline : Nat
  numRetries : Nat
  isBinaryResponse : Bool
  deriving DecidableEq, Repr

/-- The constructor of `StereotypeClient`: normalizes the access token
and resolves the options against `defaultConf`. -/
def mkConfig (accessToken : String) (o : RawOptions) : Config :=
  { accessToken := stripSchemeToken accessToken
    baseUrl := trimTrailingSlash (jsOrStr o.baseUrl defaultConf.baseUrl)
    timeout := jsOrNat o.timeout defaultConf.timeout
    deadline := jsOrNat o.deadline defaultConf.deadline
    numRetries := jsOrNat o.numRetries defaultConf.numRetries
    isBinaryResponse := jsOrFalse o.isBinaryResponse }

/-! ## Content-type validation (`_isSupportedContentType`) -/

/-- The result of the external `content-type` npm parser on a raw
content-type string: the lowercased base media type and the parameter
bag (lowercased parameter names mapped to their values). -/
structure ParsedContentType where
  type : String
  parameters : List (String × String)
  deriving DecidableEq, Repr

/-- A raw content-type argument together with the outcome of the
external `content-type` parser on it: `parsed = none` models a raw
value the parser throws on (e.g. the `null` default). -/
structure ContentTypeValue where
  raw : String
  parsed : Option ParsedContentType
  deriving DecidableEq, Repr

/-- The `supportedContentTypes` table from the source. -/
def supportedContentTypes : List (String × List String) :=
  [("dust", ["text/dust"]),
   ("mustache", ["text/mustache"]),
   ("handlebars", ["text/handlebars", "text/x-handlebars-template"]),
   ("edie", ["application/vnd.cimpress.edie+json",
             "application/vnd.cimpress.ediecsv+json"])]

/-- The `supportedPostProcessors` list from the source. -/
def supportedPostProcessors : List String := ["mjml", "xlsx"]

/-- Property access on the parameter bag of a parsed content type. -/
def lookupParam (params : List (String × String)) (key : String) : Option String :=
  (params.find? (fun kv => kv.1 == key)).map (·.2)

/-- Embeds `((parsedContentType.parameters || {}).postprocessors || '')
.split(',').map(pp => pp.toLowerCase().trim()).filter(pp => pp !== '')`. -/
def postprocessorTokens (params : List (String × String)) : List String :=
  ((jsSplit ',' ((lookupParam params "postprocessors").getD "")).map
    (fun pp => jsTrim (jsToLower pp))).filter (fun pp => pp ≠ "")

/-- The `for (let key in supportedContentTypes)` loop: `validContentType`
starts `false` and is set to `true` when some group contains the type. -/
def validContentTypeLoop (t : String) : Bool :=
  supportedContentTypes.foldl
    (fun acc kv => if kv.2.contains t then true else acc) false

/-- The `postProcessors.forEach` loop: `validPostProcessor` starts `true`
and is set to `false` on every unsupported token. -/
def validPostProcessorLoop (pps : List String) : Bool :=
  pps.foldl
    (fun acc pp => if supportedPostProcessors.contains pp then acc else false) true

/-- Embeds `StereotypeClient._isSupportedContentType` on a parsed content type. -/
def isSupportedContentType (ct : ParsedContentType) : Bool :=
  validContentTypeLoop ct.type && validPostProcessorLoop (postprocessorTokens ct.parameters)

/-- Embeds `_isSupportedContentType` on the raw argument: a raw value the
external parser throws on makes the whole call throw, which the callers
surface as a pre-network rejection, so it is never accepted. -/
def contentTypeAccepted (ctv : ContentTypeValue) : Bool :=
  match ctv.parsed with
  | none => false
  | some ct => isSupportedContentType ct

/-! ## Requests and URL verification -/

/-- An outbound HTTP request as composed by the client (before the
transport performs it). -/
structure Request where
  method : String
  url : String
  headers : List (String × String)
  body : String
  deriving DecidableEq, Repr

/-- A local (pre-network) failure: the optional `status` field of the
rejection value and its message. -/
structure LocalError where
  status : Option Nat
  message : String
  deriving DecidableEq, Repr

/-- Embeds `StereotypeClient._verifyTemplateUrl(path, templateUrl)`. -/
def verifyTemplateUrl (baseUrl path templateUrl : String) : Except String String :=
  let parts := jsSplit '/' templateUrl
  if parts.length ≤ 0 then
    .error "Invalid template URL (parts)"
  else if templateUrl ≠ baseUrl ++ path ++ "/" ++ parts.getLastD "" then
    .error ("Invalid template URL (format) " ++ templateUrl ++ " :: "
            ++ (baseUrl ++ path ++ "/" ++ parts.getLastD ""))
  else
    .ok templateUrl

/-- The last `/`-separated segment of a URL, `parts[parts.length-1]`. -/
def lastSegment (url : String) : String :=
  (jsSplit '/' url).getLastD ""

/-- JavaScript `encodeURIComponent`: characters that are kept verbatim. -/
def uriUnreservedChar (c : Char) : Bool :=
  c.isAlpha || c.isDigit || "-_.!~*()".data.contains c || c = '\x27'

/-- An uppercase hexadecimal digit. -/
def hexDigitChar (n : Nat) : Char :=
  if n < 10 then Char.ofNat (48 + n) else Char.ofNat (55 + n)

/-- Percent-encoding of one byte, `%XY` with uppercase hex. -/
def percentEncodeByte (b : UInt8) : List Char :=
  ['%', hexDigitChar (b.toNat / 16), hexDigitChar (b.toNat % 16)]

/-- JavaScript `encodeURIComponent`: unreserved characters kept, every
other character replaced by the percent-encoding of its UTF-8 bytes. -/
def encodeURIComponent (s : String) : String :=
  String.mk (s.data.flatMap (fun c =>
    if uriUnreservedChar c then [c]
    else ((String.mk [c]).toUTF8.toList).flatMap percentEncodeByte))

/-! ## Mutable client state beyond the constructor options -/

/-- The client's mutable per-instance state: the configuration plus the
optional headers installed by the `set*Header` mutators and the curie
map filled by `setCurie` (an insertion-ordered association list, as a
JavaScript object with string keys). -/
structure ClientState where
  cfg : Config
  blacklistHeader : Option String
  whitelistHeader : Option String
  acceptHeader : Option String
  acceptPreferenceHeader : Option String
  curieHeader : Option String
  maximumCrawlDepthHeader : Option String
  crawlerSoftErrors : Option String
  curies : List (String × String)
  deriving DecidableEq, Repr

/-- A freshly constructed client: no optional headers, empty curie map. -/
def ClientState.fresh (cfg : Config) : ClientState :=
  ⟨cfg, none, none, none, none, none, none, none, []⟩

/-- Embeds `StereotypeClient._constructCurieHeader()`:
`Object.keys(this.curies).map(k => k + ';' + this.curies[k]).join(',')`. -/
def constructCurieHeader (curies : List (String × String)) : String :=
  String.intercalate "," (curies.map (fun kv => kv.1 ++ ";" ++ kv.2))

/-- JavaScript truthiness of an optional header slot: set and
non-empty. -/
def headerTruthy (h : Option String) : Bool :=
  match h with
  | some s => s ≠ ""
  | none => false

/-- The curie-header selection of `_materialize` (and of
`materializeDirect`/`expand`): the explicitly set header when truthy,
else the synthesized map header when the map is non-empty, else no
header. -/
def curieHeaderValue (curieHeader : Option String) (curies : List (String × String)) :
    Option String :=
  if headerTruthy curieHeader then
    curieHeader
  else if curies.length ≠ 0 then
    some (constructCurieHeader curies)
  else
    none

/-- An optional header rendered as a (possibly empty) header list. -/
def optHeader (name : String) (h : Option String) : List (String × String) :=
  match h with
  | some s => if s ≠ "" then [(name, s)] else []
  | none => []

/-! ## Create / put template (`_createTemplate`) -/

/-- Embeds `const isPublicFlag = isPublic && (isPublic.toString().toLowerCase()
=== 'true')`, then `isPublicFlag.toString()`, with the `isPublic = false`
default parameter applied first. -/
def isPublicFlagValue (isPublic : JsVal) : String :=
  let v := jsDefault isPublic (.bool false)
  (jsAnd v (.bool (jsToLower v.toStr == "true"))).toStr

/-- Embeds `StereotypeClient._createTemplate(templateURL, method, bodyTemplate,
contentType, isPublic)`: the request it issues, or the local error it
rejects with before any network call. -/
def createTemplateCore (cfg : Config) (templateURL method : String)
    (bodyTemplate : Option String) (contentType : ContentTypeValue)
    (isPublic : JsVal) : Except String Request :=
  let isPublicFlag := isPublicFlagValue isPublic
  if ¬ (["POST", "PUT"].contains method) then
    .error "You should pass POST or PUT for the method parameter"
  else if ¬ contentTypeAccepted contentType then
    .error ("Invalid content type: " ++ contentType.raw)
  else
    .ok { method := method
          url := templateURL
          headers := [("Authorization", "Bearer " ++ cfg.accessToken),
                      ("Content-Type", contentType.raw),
                      ("x-cimpress-template-public", isPublicFlag),
                      ("Accept", "application/json")]
          body := bodyTemplate.getD "" }

/-- Embeds `createTemplate(bodyTemplate, contentType, isPublic)`: a POST to
`baseUrl + '/v1/templates'` through `_createTemplate`. -/
def createTemplatePlan (cfg : Config) (bodyTemplate : Option String)
    (contentType : ContentTypeValue) (isPublic : JsVal) : Except String Request :=
  createTemplateCore cfg (cfg.baseUrl ++ "/v1/templates") "POST"
    bodyTemplate contentType isPublic

/-- Embeds `putTemplate(templateUrl, bodyTemplate, contentType, isPublic)`:
verifies the template URL, then `_createTemplate` with method PUT. -/
def putTemplatePlan (cfg : Config) (templateUrl : String)
    (bodyTemplate : Option String) (contentType : ContentTypeValue)
    (isPublic : JsVal) : Except String Request :=
  match verifyTemplateUrl cfg.baseUrl "/v1/templates" templateUrl with
  | .error e => .error e
  | .ok verifiedTemplateUrl =>
      createTemplateCore cfg verifiedTemplateUrl "PUT" bodyTemplate contentType isPublic

/-- Embeds `putTemplateById(templateId, ...)`: the URL is
`baseUrl + '/v1/templates/' + encodeURIComponent(templateId)`. -/
def putTemplateByIdPlan (cfg : Config) (templateId : String)
    (bodyTemplate : Option String) (contentType : ContentTypeValue)
    (isPublic : JsVal) : Except String Request :=
  putTemplatePlan cfg (cfg.baseUrl ++ "/v1/templates/" ++ encodeURIComponent templateId)
    bodyTemplate contentType isPublic

/-! ## Get / delete template -/

/-- Embeds `getTemplate(templateUrl, skipCache, doNotAddBody)`: the empty-URL
404 rejection, then URL verification, then one (metadata) or two
(metadata + body) GET requests. -/
def getTemplatePlan (cfg : Config) (templateUrl : String) (doNotAddBody : Bool) :
    Except LocalError (List Request) :=
  if templateUrl = "" then
    .error ⟨some 404, "Template not found! Empty template ID provided."⟩
  else
    match verifyTemplateUrl cfg.baseUrl "/v1/templates" templateUrl with
    | .error e => .error ⟨none, e⟩
    | .ok verifiedTemplateUrl =>
        let infoReq : Request :=
          ⟨"GET", verifiedTemplateUrl,
           [("Authorization", "Bearer " ++ cfg.accessToken),
            ("Accept", "application/json")], ""⟩
        let bodyReq : Request :=
          ⟨"GET", verifiedTemplateUrl,
           [("Authorization", "Bearer " ++ cfg.accessToken)], ""⟩
        .ok (if doNotAddBody then [infoReq] else [infoReq, bodyReq])

/-- Embeds `getTemplateById(templateId, ...)`: the URL is
`baseUrl + '/v1/templates/' + encodeURIComponent(templateId)`. -/
def getTemplateByIdPlan (cfg : Config) (templateId : String) (doNotAddBody : Bool) :
    Except LocalError (List Request) :=
  getTemplatePlan cfg (cfg.baseUrl ++ "/v1/templates/" ++ encodeURIComponent templateId)
    doNotAddBody

/-- Embeds `deleteTemplate(templateUrl, skipCache)`: URL verification, then a
DELETE request. -/
def deleteTemplatePlan (cfg : Config) (templateUrl : String) : Except String Request :=
  match verifyTemplateUrl cfg.baseUrl "/v1/templates" templateUrl with
  | .error e => .error e
  | .ok verifiedTemplateUrl =>
      .ok ⟨"DELETE", verifiedTemplateUrl,
           [("Authorization", "Bearer " ++ cfg.accessToken)], ""⟩

/-! ## Materialization (`_materialize`) -/

/-- The header list composed by `_materialize` for the POST request:
the fixed headers, then each optional header only when its slot is
truthy, with the curie header chosen by `curieHeaderValue`. -/
def materializeHeaders (st : ClientState) (preferAsync : Bool) : List (String × String) :=
  [("Authorization", "Bearer " ++ st.cfg.accessToken),
   ("Content-Type", "application/json"),
   ("x-cimpress-link-timeout", toString st.cfg.timeout)]
  ++ optHeader "x-cimpress-rel-blacklist" st.blacklistHeader
  ++ optHeader "x-cimpress-rel-whitelist" st.whitelistHeader
  ++ optHeader "accept" st.acceptHeader
  ++ optHeader "x-cimpress-accept-preference" st.acceptPreferenceHeader
  ++ (match curieHeaderValue st.curieHeader st.curies with
      | some v => [("x-cimpress-rel-curies", v)]
      | none => [])
  ++ optHeader "x-cimpress-max-depth" st.maximumCrawlDepthHeader
  ++ (if preferAsync then [("prefer", "respond-async")] else [])

/-- Embeds `_materialize(templateUrl, propertyBag, ...)` up to the point the
POST request is issued: URL verification, template-id extraction, and
request composition (or the local error thrown before any network
call). -/
def materializePlan (st : ClientState) (templateUrl : String)
    (propertyBag : String) (preferAsync : Bool) : Except String Request :=
  match verifyTemplateUrl st.cfg.baseUrl "/v1/templates" templateUrl with
  | .error e => .error e
  | .ok verifiedTemplateUrl =>
      let parts := jsSplit '/' verifiedTemplateUrl
      let templateId := parts.getLastD ""
      .ok ⟨"POST",
           st.cfg.baseUrl ++ "/v1/templates" ++ "/" ++ templateId ++ "/materializations",
           materializeHeaders st preferAsync,
           propertyBag⟩

/-- A successful HTTP response as seen by the client's success handler:
status, the optional `Location` header, the text body and the parsed
binary body. -/
structure HttpResponse where
  status : Nat
  location : Option String
  text : String
  body : String
  deriving DecidableEq, Repr

/-- The response normalization of `_materialize`'s success handler:
`(status, result)` where the result is `some` string or `none` for the
JavaScript `undefined`. -/
def materializeNormalize (getMaterializationId isBinaryResponse : Bool)
    (res : HttpResponse) : Nat × Option String :=
  match getMaterializationId, res.location with
  | true, some loc =>
      let preStringLen := "v1".length + "/materializations/".length + 1
      (res.status, some (jsSubstring loc preStringLen))
  | _, _ =>
      if res.status == 202 then
        (res.status, res.location)
      else
        (res.status, some (if isBinaryResponse then res.body else res.text))

/-! ## Transport outcomes (livecheck, expand)

The HTTP transport is the external `superagent` library, not code of
this repository.  Modelled from the spec: §7 — "any non-2xx response is
surfaced as a rejected result carrying the HTTP status", and transport
errors (timeout, connection failure) are surfaced identically; 2xx
responses are delivered to the success handler. -/

/-- What the server did for one attempt: produced an HTTP response, or
the transport failed outright. -/
inductive TransportResult where
  | response (res : HttpResponse)
  | transportError
  deriving DecidableEq, Repr

/-- Modelled from the spec: the external transport's promise semantics —
2xx responses resolve, everything else rejects (the error carries the
status, `none` for a pure transport failure). -/
def transportDelivers (t : TransportResult) : Except (Option Nat) HttpResponse :=
  match t with
  | .response res =>
      if 200 ≤ res.status ∧ res.status < 300 then .ok res else .error (some res.status)
  | .transportError => .error none

/-- The outcome of `livecheck` as observed by the caller. -/
inductive LivecheckOutcome where
  | resolved (b : Bool)
  | rejected
  deriving DecidableEq, Repr

/-- Embeds `livecheck(skipCache)`: the success handler resolves
`res && res.status == 200`; the error handler rejects. -/
def livecheckOutcome (t : TransportResult) : LivecheckOutcome :=
  match transportDelivers t with
  | .ok res => .resolved (res.status == 200)
  | .error _ => .rejected

/-! ## Expand (`expand`) and its handcrafted retry -/

/-- The transport outcome of one `expand` attempt: a resolved response
text, or an error with its HTTP status and response body text. -/
inductive ExpandResp where
  | ok (text : String)
  | err (status : Nat) (bodyText : String)
  deriving DecidableEq, Repr

/-- Embeds `err.response.text.includes('ESOCKETTIMEDOUT')`. -/
def isTimeoutErrorText (bodyText : String) : Bool :=
  jsIncludes bodyText "ESOCKETTIMEDOUT"

/-- The retry condition of `expand`'s error handler:
`err.status === 400 && self.numRetries > 0 && isTimeoutError(err)`. -/
def expandRetries (numRetries : Nat) (status : Nat) (bodyText : String) : Prop :=
  status = 400 ∧ 0 < numRetries ∧ isTimeoutErrorText bodyText = true

instance (numRetries status : Nat) (bodyText : String) :
    Decidable (expandRetries numRetries status bodyText) := by
  unfold expandRetries; infer_instance

/-- The caller-visible outcome of `expand` on a finite list of per-attempt
transport outcomes: `pending` when every supplied attempt was retried
away (the recursion would consume further attempts). -/
inductive ExpandOutcome where
  | resolved (text : String)
  | rejected (status : Nat)
  | pending
  deriving DecidableEq, Repr

/-- Embeds `expand(propertyBag, skipCache)` run against a list of per-attempt
transport outcomes: on `err.status === 400 && numRetries > 0 &&`
timeout-signature, it recurses with the *same* configuration
(`numRetries` is never decremented). -/
def expandOutcome (numRetries : Nat) : List ExpandResp → ExpandOutcome
  | [] => .pending
  | .ok text :: _ => .resolved text
  | .err status bodyText :: rest =>
      if expandRetries numRetries status bodyText then
        expandOutcome numRetries rest
      else
        .rejected status

/-- The number of attempts (initial call plus recursive retries) that
`expand` performs against a list of per-attempt transport outcomes. -/
def expandAttempts (numRetries : Nat) : List ExpandResp → Nat
  | [] => 0
  | .ok _ :: _ => 1
  | .err status bodyText :: rest =>
      if expandRetries numRetries status bodyText then
        1 + expandAttempts numRetries rest
      else
        1

/-! ## Helper lemmas -/

theorem dropThroughFirstSpace_append (pre post : List Char) (h : ' ' ∉ pre) :
    dropThroughFirstSpace (pre ++ ' ' :: post) = some post := by
  induction pre with
  | nil => simp [dropThroughFirstSpace]
  | cons c cs ih =>
      simp only [List.mem_cons, not_or] at h
      simp only [List.cons_append, dropThroughFirstSpace]
      rw [if_neg (fun hc => h.1 hc.symm)]
      exact ih h.2

theorem dropThroughFirstSpace_none (s : List Char) (h : ' ' ∉ s) :
    dropThroughFirstSpace s = none := by
  induction s with
  | nil => rfl
  | cons c cs ih =>
      simp only [List.mem_cons, not_or] at h
      simp only [dropThroughFirstSpace]
      rw [if_neg (fun hc => h.1 hc.symm)]
      exact ih h.2

theorem mk_data (s : String) : String.mk s.data = s := rfl

theorem data_mk (l : List Char) : (String.mk l).data = l := rfl

/-! ## C2 — access-token scheme-prefix stripping -/

/-- C2: for every access token, the stored bearer credential is exactly
the suffix after the first space (the whole string when no space
occurs), and every request plan sends `Authorization: Bearer ` followed
by that credential. -/
theorem accessToken_scheme_stripping :
    (∀ pre post : List Char, ' ' ∉ pre →
       stripSchemeToken (String.mk (pre ++ ' ' :: post)) = String.mk post)
    ∧ (∀ s : List Char, ' ' ∉ s → stripSchemeToken (String.mk s) = String.mk s)
    ∧ (∀ tok o, (mkConfig tok o).accessToken = stripSchemeToken tok)
    ∧ (∀ tok o url b reqs,
         getTemplatePlan (mkConfig tok o) url b = .ok reqs →
         ∀ r ∈ reqs, ("Authorization", "Bearer " ++ stripSchemeToken tok) ∈ r.headers) := by
  refine ⟨?_, ?_, ?_, ?_⟩
  · intro pre post h
    simp only [stripSchemeToken, data_mk, dropThroughFirstSpace_append pre post h]
  · intro s h
    simp only [stripSchemeToken, data_mk, dropThroughFirstSpace_none s h]
  · intro tok o
    rfl
  · intro tok o url b reqs hplan r hr
    unfold getTemplatePlan at hplan
    split at hplan
    · exact absurd hplan (by simp)
    · split at hplan
      · exact absurd hplan (by simp)
      · simp only [Except.ok.injEq] at hplan
        subst hplan
        have hacc : (mkConfig tok o).accessToken = stripSchemeToken tok := rfl
        split at hr <;> simp only [List.mem_cons, List.mem_singleton] at hr
        · rcases hr with h1 | h1 <;> simp_all [hacc]
        · rcases hr with h1 | h1 | h1 <;> simp_all [hacc]

/-- Witness for C2 at a concrete token. -/
theorem accessToken_scheme_stripping_witness :
    stripSchemeToken (String.mk ("Bearer".data ++ ' ' :: "tok123".data)) = String.mk "tok123".data
    ∧ stripSchemeToken (String.mk "baretoken".data) = String.mk "baretoken".data := by
  exact ⟨accessToken_scheme_stripping.1 "Bearer".data "tok123".data (by decide),
         accessToken_scheme_stripping.2.1 "baretoken".data (by decide)⟩

theorem jsOrNat_ne_zero (v : Option Nat) (d : Nat) (hd : d ≠ 0) : jsOrNat v d ≠ 0 := by
  cases v with
  | none => simpa [jsOrNat] using hd
  | some n =>
      simp only [jsOrNat]
      split
      · assumption
      · exact hd

/-! ## C10 — falsy constructor options fall back to the defaults -/

/-- C10: a present-but-falsy option (`0` for timeout, deadline or
numRetries, `""` for baseUrl) is indistinguishable from a missing one —
the constructor uses the defaults (5000, 60000, 3, production base URL)
— and no caller can obtain a zero timeout, zero deadline or zero retry
count. -/
theorem constructor_falsy_options_use_defaults :
    (∀ tok : String,
        mkConfig tok ⟨some "", some 0, some 0, some 0, none⟩ = mkConfig tok RawOptions.empty
        ∧ (mkConfig tok ⟨some "", some 0, some 0, some 0, none⟩).timeout = 5000
        ∧ (mkConfig tok ⟨some "", some 0, some 0, some 0, none⟩).deadline = 60000
        ∧ (mkConfig tok ⟨some "", some 0, some 0, some 0, none⟩).numRetries = 3
        ∧ (mkConfig tok ⟨some "", some 0, some 0, some 0, none⟩).baseUrl
            = "https://stereotype.trdlnk.cimpress.io")
    ∧ (∀ tok o, (mkConfig tok o).timeout ≠ 0
        ∧ (mkConfig tok o).deadline ≠ 0
        ∧ (mkConfig tok o).numRetries ≠ 0) := by
  constructor
  · intro tok
    refine ⟨?_, rfl, rfl, rfl, ?_⟩
    · unfold mkConfig RawOptions.empty
      congr 1
    · show trimTrailingSlash (jsOrStr (some "") defaultConf.baseUrl)
        = "https://stereotype.trdlnk.cimpress.io"
      decide
  · intro tok o
    exact ⟨jsOrNat_ne_zero o.timeout defaultConf.timeout (by decide),
           jsOrNat_ne_zero o.deadline defaultConf.deadline (by decide),
           jsOrNat_ne_zero o.numRetries defaultConf.numRetries (by decide)⟩

/-! ## C1 — content-type validation -/

theorem validContentTypeLoop_iff (t : String) :
    validContentTypeLoop t = true ↔
      (t = "text/dust" ∨ t = "text/mustache" ∨ t = "text/handlebars"
       ∨ t = "text/x-handlebars-template"
       ∨ t = "application/vnd.cimpress.edie+json"
       ∨ t = "application/vnd.cimpress.ediecsv+json") := by
  simp only [validContentTypeLoop, supportedContentTypes, List.foldl_cons, List.foldl_nil,
    List.contains, List.elem_eq_mem, List.mem_cons, List.not_mem_nil, or_false,
    decide_eq_true_eq]
  split_ifs <;> simp_all

theorem foldl_and_check (c : α → Bool) (l : List α) (b : Bool) :
    l.foldl (fun acc x => if c x then acc else false) b = (b && l.all c) := by
  induction l generalizing b with
  | nil => simp
  | cons x xs ih =>
      simp only [List.foldl_cons, List.all_cons]
      cases hcx : c x
      · rw [if_neg (by simp [hcx]), ih]
        simp [hcx]
      · rw [if_pos (by simp [hcx]), ih]
        simp [hcx]

theorem validPostProcessorLoop_iff (pps : List String) :
    validPostProcessorLoop pps = true ↔ ∀ pp ∈ pps, pp = "mjml" ∨ pp = "xlsx" := by
  unfold validPostProcessorLoop
  rw [foldl_and_check]
  simp only [Bool.true_and, List.all_eq_true, supportedPostProcessors, List.contains,
    List.elem_eq_mem, List.mem_cons, List.not_mem_nil, or_false, decide_eq_true_eq]

/-- C1: a content type passes `_isSupportedContentType` iff its parsed
base media type is one of the six supported types and every
comma-separated, lowercased, trimmed, non-empty `postprocessors` token
is `mjml` or `xlsx`; and create/put reject locally (no request) on an
unaccepted content type. -/
theorem contentType_validation_iff :
    (∀ ct : ParsedContentType,
       isSupportedContentType ct = true ↔
         ((ct.type = "text/dust" ∨ ct.type = "text/mustache" ∨ ct.type = "text/handlebars"
           ∨ ct.type = "text/x-handlebars-template"
           ∨ ct.type = "application/vnd.cimpress.edie+json"
           ∨ ct.type = "application/vnd.cimpress.ediecsv+json")
          ∧ ∀ pp ∈ postprocessorTokens ct.parameters, pp = "mjml" ∨ pp = "xlsx"))
    ∧ (∀ cfg bodyTemplate ctv isPublic,
         contentTypeAccepted ctv = false →
           (createTemplatePlan cfg bodyTemplate ctv isPublic).isOk = false
           ∧ ∀ url, (putTemplatePlan cfg url bodyTemplate ctv isPublic).isOk = false) := by
  constructor
  · intro ct
    simp only [isSupportedContentType, Bool.and_eq_true, validContentTypeLoop_iff,
      validPostProcessorLoop_iff]
  · intro cfg bodyTemplate ctv isPublic h
    constructor
    · simp [createTemplatePlan, createTemplateCore, h, Except.isOk, Except.toBool]
    · intro url
      cases hv : verifyTemplateUrl cfg.baseUrl "/v1/templates" url with
      | error e => simp [putTemplatePlan, hv, Except.isOk, Except.toBool]
      | ok vurl => simp [putTemplatePlan, hv, createTemplateCore, h, Except.isOk, Except.toBool]

/-- Witness for C1: a supported type with a bad postprocessor token is
rejected by validation and by the create/put plans. -/
theorem contentType_validation_iff_witness :
    (isSupportedContentType ⟨"text/mustache", [("postprocessors", "mjml,docx")]⟩ = true ↔
       (("text/mustache" = "text/dust" ∨ "text/mustache" = "text/mustache"
         ∨ "text/mustache" = "text/handlebars" ∨ "text/mustache" = "text/x-handlebars-template"
         ∨ "text/mustache" = "application/vnd.cimpress.edie+json"
         ∨ "text/mustache" = "application/vnd.cimpress.ediecsv+json")
        ∧ ∀ pp ∈ postprocessorTokens [("postprocessors", "mjml,docx")],
            pp = "mjml" ∨ pp = "xlsx"))
    ∧ (createTemplatePlan (mkConfig "tok" RawOptions.empty) none
         ⟨"text/mustache; postprocessors=mjml,docx",
          some ⟨"text/mustache", [("postprocessors", "mjml,docx")]⟩⟩ .undefined).isOk = false
    ∧ (putTemplatePlan (mkConfig "tok" RawOptions.empty)
         "https://stereotype.trdlnk.cimpress.io/v1/templates/x" none
         ⟨"text/mustache; postprocessors=mjml,docx",
          some ⟨"text/mustache", [("postprocessors", "mjml,docx")]⟩⟩ .undefined).isOk = false := by
  have h := contentType_validation_iff
  have hbad : contentTypeAccepted
      ⟨"text/mustache; postprocessors=mjml,docx",
       some ⟨"text/mustache", [("postprocessors", "mjml,docx")]⟩⟩ = false := by decide
  have h2 := h.2 (mkConfig "tok" RawOptions.empty) none
    ⟨"text/mustache; postprocessors=mjml,docx",
     some ⟨"text/mustache", [("postprocessors", "mjml,docx")]⟩⟩ .undefined hbad
  exact ⟨h.1 ⟨"text/mustache", [("postprocessors", "mjml,docx")]⟩,
         h2.1, h2.2 "https://stereotype.trdlnk.cimpress.io/v1/templates/x"⟩

/-! ## C3 — template-URL verification -/

theorem splitChars_ne_nil (sep : Char) (l : List Char) : splitChars sep l ≠ [] := by
  cases l with
  | nil => simp [splitChars]
  | cons c cs =>
      simp only [splitChars]
      split
      · simp
      · split <;> simp

theorem jsSplit_ne_nil (sep : Char) (s : String) : jsSplit sep s ≠ [] := by
  simp only [jsSplit, ne_eq, List.map_eq_nil_iff]
  exact splitChars_ne_nil sep s.data

/-- C3: a full template URL passes `_verifyTemplateUrl` iff appending
its last `/`-separated segment to the base URL plus `/v1/templates`
reconstructs exactly the URL; on mismatch every URL-taking operation
(get, put, delete, materialize) fails locally with no request issued. -/
theorem templateUrl_verification_iff :
    ∀ (st : ClientState) (url : String),
      ((verifyTemplateUrl st.cfg.baseUrl "/v1/templates" url).isOk = true ↔
         url = st.cfg.baseUrl ++ "/v1/templates" ++ "/" ++ lastSegment url)
      ∧ (url ≠ st.cfg.baseUrl ++ "/v1/templates" ++ "/" ++ lastSegment url →
          ∀ (b : Bool) (bodyTemplate : Option String) (ctv : ContentTypeValue)
            (isPublic : JsVal) (propertyBag : String) (preferAsync : Bool),
            (getTemplatePlan st.cfg url b).isOk = false
            ∧ (putTemplatePlan st.cfg url bodyTemplate ctv isPublic).isOk = false
            ∧ (deleteTemplatePlan st.cfg url).isOk = false
            ∧ (materializePlan st url propertyBag preferAsync).isOk = false) := by
  intro st url
  have hne : jsSplit '/' url ≠ [] := jsSplit_ne_nil '/' url
  have hlen : ¬ (jsSplit '/' url).length ≤ 0 := by
    cases h : jsSplit '/' url with
    | nil => exact absurd h hne
    | cons a as => simp
  have hiff : (verifyTemplateUrl st.cfg.baseUrl "/v1/templates" url).isOk = true ↔
      url = st.cfg.baseUrl ++ "/v1/templates" ++ "/" ++ lastSegment url := by
    unfold verifyTemplateUrl lastSegment
    rw [if_neg hlen]
    split_ifs with h2
    · exact iff_of_false (by simp [Except.isOk, Except.toBool]) h2
    · exact iff_of_true rfl (not_not.mp h2)
  refine ⟨hiff, ?_⟩
  intro hmis b bodyTemplate ctv isPublic propertyBag preferAsync
  have hnotok : (verifyTemplateUrl st.cfg.baseUrl "/v1/templates" url).isOk = false := by
    cases hok : (verifyTemplateUrl st.cfg.baseUrl "/v1/templates" url).isOk with
    | false => rfl
    | true => exact absurd (hiff.mp hok) hmis
  obtain ⟨e, hv⟩ : ∃ e, verifyTemplateUrl st.cfg.baseUrl "/v1/templates" url = .error e := by
    cases hv : verifyTemplateUrl st.cfg.baseUrl "/v1/templates" url with
    | error e => exact ⟨e, rfl⟩
    | ok v => rw [hv] at hnotok; exact absurd hnotok (by simp [Except.isOk, Except.toBool])
  refine ⟨?_, ?_, ?_, ?_⟩
  · unfold getTemplatePlan
    split
    · simp [Except.isOk, Except.toBool]
    · rw [hv]; simp [Except.isOk, Except.toBool]
  · unfold putTemplatePlan
    rw [hv]
    simp [Except.isOk, Except.toBool]
  · unfold deleteTemplatePlan
    rw [hv]
    simp [Except.isOk, Except.toBool]
  · unfold materializePlan
    rw [hv]
    simp [Except.isOk, Except.toBool]

/-- Witness for C3 at a crafted cross-origin URL. -/
theorem templateUrl_verification_iff_witness :
    ((verifyTemplateUrl (ClientState.fresh (mkConfig "tok" RawOptions.empty)).cfg.baseUrl
        "/v1/templates" "https://evil.example/v1/templates/x").isOk = true ↔
       "https://evil.example/v1/templates/x"
         = (ClientState.fresh (mkConfig "tok" RawOptions.empty)).cfg.baseUrl
           ++ "/v1/templates" ++ "/" ++ lastSegment "https://evil.example/v1/templates/x")
    ∧ ((getTemplatePlan (ClientState.fresh (mkConfig "tok" RawOptions.empty)).cfg
          "https://evil.example/v1/templates/x" false).isOk = false
       ∧ (putTemplatePlan (ClientState.fresh (mkConfig "tok" RawOptions.empty)).cfg
            "https://evil.example/v1/templates/x" none ⟨"text/mustache", some ⟨"text/mustache", []⟩⟩
            .undefined).isOk = false
       ∧ (deleteTemplatePlan (ClientState.fresh (mkConfig "tok" RawOptions.empty)).cfg
            "https://evil.example/v1/templates/x").isOk = false
       ∧ (materializePlan (ClientState.fresh (mkConfig "tok" RawOptions.empty))
            "https://evil.example/v1/templates/x" "" false).isOk = false) := by
  have h := templateUrl_verification_iff (ClientState.fresh (mkConfig "tok" RawOptions.empty))
    "https://evil.example/v1/templates/x"
  exact ⟨h.1, h.2 (by decide) false none ⟨"text/mustache", some ⟨"text/mustache", []⟩⟩
    .undefined "" false⟩

/-! ## C4 — materialize response normalization -/

theorem data_append (s t : String) : (s ++ t).data = s.data ++ t.data := by
  cases s
  cases t
  rfl

theorem jsSubstring_append (pre t : String) :
    jsSubstring (pre ++ t) pre.data.length = t := by
  unfold jsSubstring
  rw [data_append, List.drop_left]

/-- C4 (amended): the normalization of `_materialize`'s success handler —
(a) whenever the materialization id was requested and *any* `Location`
header is present, the result is the location minus its first 21
characters, which is exactly `<id>` when the location has the form
`/v1/materializations/<id>`; (b) otherwise a 202 response resolves to
the raw `Location` value; (c) otherwise the response body (binary body
or text per the configuration). -/
theorem materialize_response_normalization :
    ∀ (isBin : Bool) (res : HttpResponse),
      (∀ id, res.location = some ("/v1/materializations/" ++ id) →
         materializeNormalize true isBin res = (res.status, some id))
      ∧ (∀ loc, res.location = some loc →
         materializeNormalize true isBin res = (res.status, some (jsSubstring loc 21)))
      ∧ (∀ gmi, (gmi = false ∨ res.location = none) → res.status = 202 →
         materializeNormalize gmi isBin res = (res.status, res.location))
      ∧ (∀ gmi, (gmi = false ∨ res.location = none) → res.status ≠ 202 →
         materializeNormalize gmi isBin res
           = (res.status, some (if isBin then res.body else res.text))) := by
  intro isBin res
  obtain ⟨status, location, text, body⟩ := res
  have hlen : "v1".length + "/materializations/".length + 1 = 21 := by decide
  have hsub : ∀ loc, location = some loc →
      materializeNormalize true isBin ⟨status, location, text, body⟩
        = (status, some (jsSubstring loc 21)) := by
    intro loc hloc
    subst hloc
    simp only [materializeNormalize, hlen]
  refine ⟨?_, hsub, ?_, ?_⟩
  · intro id hloc
    have h := hsub _ hloc
    rw [h]
    have h21 : (21 : Nat) = "/v1/materializations/".data.length := by decide
    rw [h21, jsSubstring_append]
  · intro gmi h h202
    subst h202
    rcases h with h | h
    · subst h
      cases location <;> simp [materializeNormalize]
    · subst h
      cases gmi <;> simp [materializeNormalize]
  · intro gmi h h202
    have hif : ¬ (status == 202) = true := by simpa using h202
    rcases h with h | h
    · subst h
      cases location <;> simp [materializeNormalize, hif]
    · subst h
      cases gmi <;> simp [materializeNormalize, hif]

/-- C4 counterexample: with `getMaterializationId = true` and a 202
response whose `Location` header is not of the form
`/v1/materializations/<id>`, the code still takes the id-extraction
branch and resolves to the location minus its first 21 characters (here
`""`), not to the raw `Location` value as the claim's variant (b)
states. -/
theorem materialize_response_normalization_counterexample :
    materializeNormalize true false ⟨202, some "/xyz", "T", "B"⟩ = (202, some "")
    ∧ materializeNormalize true false ⟨202, some "/xyz", "T", "B"⟩ ≠ (202, some "/xyz") := by
  decide

/-- Witness for C4 on concrete responses for each variant. -/
theorem materialize_response_normalization_witness :
    materializeNormalize true false ⟨201, some ("/v1/materializations/" ++ "abc"), "T", "B"⟩
      = (201, some "abc")
    ∧ materializeNormalize false false ⟨202, some "/v1/materializations/abc", "T", "B"⟩
      = (202, some "/v1/materializations/abc")
    ∧ materializeNormalize false true ⟨201, none, "T", "B"⟩ = (201, some "B") := by
  refine ⟨(materialize_response_normalization false
      ⟨201, some ("/v1/materializations/" ++ "abc"), "T", "B"⟩).1 "abc" rfl, ?_, ?_⟩
  · exact (materialize_response_normalization false
      ⟨202, some "/v1/materializations/abc", "T", "B"⟩).2.2.1 false (Or.inl rfl) rfl
  · exact (materialize_response_normalization true
      ⟨201, none, "T", "B"⟩).2.2.2 false (Or.inl rfl) (by decide)

/-! ## C5 — isPublic coercion to the public header -/

/-- C5: the `x-cimpress-template-public` header value is `"true"` iff
the `isPublic` argument is boolean `true` or a string equal to `"true"`
case-insensitively; the enumerated inputs `undefined`, `false`,
`"false"`, `"False"` give `"false"`; and a successful
`_createTemplate` request carries exactly this value in that header. -/
theorem isPublic_header_coercion :
    (∀ v : JsVal, isPublicFlagValue v = "true" ↔
       (v = .bool true ∨ ∃ s, v = .str s ∧ jsToLower s = "true"))
    ∧ (isPublicFlagValue .undefined = "false" ∧ isPublicFlagValue (.bool false) = "false"
       ∧ isPublicFlagValue (.str "false") = "false"
       ∧ isPublicFlagValue (.str "False") = "false"
       ∧ isPublicFlagValue (.bool true) = "true"
       ∧ isPublicFlagValue (.str "true") = "true"
       ∧ isPublicFlagValue (.str "True") = "true")
    ∧ (∀ cfg url method bodyTemplate ctv v req,
         createTemplateCore cfg url method bodyTemplate ctv v = .ok req →
         ("x-cimpress-template-public", isPublicFlagValue v) ∈ req.headers) := by
  refine ⟨?_, by decide, ?_⟩
  · intro v
    cases v with
    | undefined => simp [isPublicFlagValue, jsDefault, jsAnd, JsVal.truthy, JsVal.toStr]
    | bool b =>
        cases b
        · simp [isPublicFlagValue, jsDefault, jsAnd, JsVal.truthy, JsVal.toStr]
        · exact iff_of_true (by decide) (Or.inl rfl)
    | str s =>
        by_cases hs : s = ""
        · subst hs
          simp [isPublicFlagValue, jsDefault, jsAnd, JsVal.truthy, JsVal.toStr]
          decide
        · by_cases ht : jsToLower s = "true"
          · refine iff_of_true ?_ (Or.inr ⟨s, rfl, ht⟩)
            simp [isPublicFlagValue, jsDefault, jsAnd, JsVal.truthy, JsVal.toStr, hs, ht]
          · have hb : (jsToLower s == "true") = false := beq_eq_false_iff_ne.mpr ht
            refine iff_of_false ?_ ?_
            · simp [isPublicFlagValue, jsDefault, jsAnd, JsVal.truthy, JsVal.toStr, hs, hb]
            · rintro (h | ⟨s', hs', ht'⟩)
              · exact JsVal.noConfusion h
              · rw [show s = s' from JsVal.str.inj hs'] at ht
                exact ht ht'
  · intro cfg url method bodyTemplate ctv v req hok
    unfold createTemplateCore at hok
    split at hok
    · exact Except.noConfusion hok
    · split at hok
      · exact Except.noConfusion hok
      · rw [← Except.ok.inj hok]
        simp

/-- Witness for C5 at a concrete mixed-case string input and a concrete
successful PUT request. -/
theorem isPublic_header_coercion_witness :
    (isPublicFlagValue (.str "True") = "true" ↔
       (JsVal.str "True" = .bool true ∨ ∃ s, JsVal.str "True" = .str s ∧ jsToLower s = "true"))
    ∧ ("x-cimpress-template-public", isPublicFlagValue (.str "True")) ∈
        (Request.mk "PUT" "u"
          [("Authorization", "Bearer tok"), ("Content-Type", "text/mustache"),
           ("x-cimpress-template-public", "true"), ("Accept", "application/json")] "").headers := by
  refine ⟨isPublic_header_coercion.1 (.str "True"), ?_⟩
  exact isPublic_header_coercion.2.2 (mkConfig "tok" RawOptions.empty) "u" "PUT" none
    ⟨"text/mustache", some ⟨"text/mustache", []⟩⟩ (.str "True") _ rfl

/-! ## C6 — curie header synthesis and override -/

/-- C6 (amended): a *non-empty* explicitly set curie header is sent
verbatim, overriding the map entirely; an empty explicit header is
treated as unset, so the map synthesis applies; a non-empty curie map
synthesizes `key;value` pairs joined by commas in insertion order
(`{a: "x", b: "y"}` gives `"a;x,b;y"`); and `_materialize` attaches the
selected value as `x-cimpress-rel-curies`. -/
theorem curie_header_selection :
    (∀ h curies, h ≠ "" → curieHeaderValue (some h) curies = some h)
    ∧ (∀ curies : List (String × String), curies ≠ [] →
         curieHeaderValue none curies = some (constructCurieHeader curies)
         ∧ curieHeaderValue (some "") curies = some (constructCurieHeader curies))
    ∧ curieHeaderValue none [("a", "x"), ("b", "y")] = some "a;x,b;y"
    ∧ (∀ st preferAsync v, curieHeaderValue st.curieHeader st.curies = some v →
         ("x-cimpress-rel-curies", v) ∈ materializeHeaders st preferAsync) := by
  refine ⟨?_, ?_, by decide, ?_⟩
  · intro h curies hne
    simp [curieHeaderValue, headerTruthy, hne]
  · intro curies hne
    have hlen : curies.length ≠ 0 := by
      simpa [List.length_eq_zero] using hne
    constructor <;> simp [curieHeaderValue, headerTruthy, hlen]
  · intro st preferAsync v hv
    unfold materializeHeaders
    rw [hv]
    simp [List.mem_append]

/-- C6 counterexample: after `setCurieHeader("")` (an explicitly set
curie header string) with a non-empty curie map, the sent value is the
map synthesis, not the explicit string, contradicting the claim that an
explicitly set string is always sent verbatim. -/
theorem curie_header_selection_counterexample :
    curieHeaderValue (some "") [("a", "x")] = some "a;x"
    ∧ curieHeaderValue (some "") [("a", "x")] ≠ some "" := by
  decide

/-- Witness for C6 on a concrete explicit header, a concrete map and a
concrete client state. -/
theorem curie_header_selection_witness :
    curieHeaderValue (some "k;v") [("a", "x")] = some "k;v"
    ∧ curieHeaderValue none [("a", "x")] = some (constructCurieHeader [("a", "x")])
    ∧ ("x-cimpress-rel-curies", "a;x,b;y") ∈
        materializeHeaders
          ⟨mkConfig "tok" RawOptions.empty, none, none, none, none, none, none, none,
           [("a", "x"), ("b", "y")]⟩ false := by
  refine ⟨curie_header_selection.1 "k;v" [("a", "x")] (by decide),
          (curie_header_selection.2.1 [("a", "x")] (by decide)).1, ?_⟩
  exact curie_header_selection.2.2.2
    ⟨mkConfig "tok" RawOptions.empty, none, none, none, none, none, none, none,
     [("a", "x"), ("b", "y")]⟩ false "a;x,b;y" (by decide)

/-! ## C7 — livecheck status normalization -/

/-- C7 (amended): livecheck resolves to `true` iff the status is exactly
200; non-2xx statuses and transport failures reject (surfaced by the
transport as errors); but a 2xx status other than 200 reaches the
success handler and resolves to `false` instead of rejecting. -/
theorem livecheck_status_normalization :
    (∀ res : HttpResponse, livecheckOutcome (.response res) = .resolved true ↔ res.status = 200)
    ∧ (∀ res : HttpResponse, 200 ≤ res.status → res.status < 300 →
         livecheckOutcome (.response res) = .resolved (res.status == 200))
    ∧ (∀ res : HttpResponse, res.status < 200 ∨ 300 ≤ res.status →
         livecheckOutcome (.response res) = .rejected)
    ∧ livecheckOutcome .transportError = .rejected
    ∧ (∀ res : HttpResponse, 200 ≤ res.status → res.status < 300 → res.status ≠ 200 →
         livecheckOutcome (.response res) = .resolved false) := by
  have hok : ∀ res : HttpResponse, 200 ≤ res.status → res.status < 300 →
      livecheckOutcome (.response res) = .resolved (res.status == 200) := by
    intro res h1 h2
    simp [livecheckOutcome, transportDelivers, h1, h2]
  have hbad : ∀ res : HttpResponse, res.status < 200 ∨ 300 ≤ res.status →
      livecheckOutcome (.response res) = .rejected := by
    intro res h
    have hcond : ¬ (200 ≤ res.status ∧ res.status < 300) := by omega
    simp [livecheckOutcome, transportDelivers, hcond]
  refine ⟨?_, hok, hbad, rfl, ?_⟩
  · intro res
    constructor
    · intro h
      by_cases hc : 200 ≤ res.status ∧ res.status < 300
      · have := hok res hc.1 hc.2
        rw [this] at h
        have hb : (res.status == 200) = true := LivecheckOutcome.resolved.inj h
        simpa using hb
      · have := hbad res (by omega)
        rw [this] at h
        exact LivecheckOutcome.noConfusion h
    · intro h
      rw [hok res (by omega) (by omega), h]
      rfl
  · intro res h1 h2 hne
    rw [hok res h1 h2]
    have : (res.status == 200) = false := by
      simpa using hne
    rw [this]

/-- C7 counterexample: a 204 response reaches the success handler and
resolves to `false`; it does not reject, contradicting the claim that
every status other than 200 causes the promise to reject. -/
theorem livecheck_status_normalization_counterexample :
    livecheckOutcome (.response ⟨204, none, "", ""⟩) = .resolved false
    ∧ livecheckOutcome (.response ⟨204, none, "", ""⟩) ≠ .rejected := by
  decide

/-- Witness for C7 at statuses 200, 500, and 204. -/
theorem livecheck_status_normalization_witness :
    (livecheckOutcome (.response ⟨200, none, "", ""⟩) = .resolved true ↔ (200 : Nat) = 200)
    ∧ livecheckOutcome (.response ⟨500, none, "", ""⟩) = .rejected
    ∧ livecheckOutcome (.response ⟨206, none, "", ""⟩) = .resolved false := by
  refine ⟨livecheck_status_normalization.1 ⟨200, none, "", ""⟩, ?_, ?_⟩
  · exact livecheck_status_normalization.2.2.1 ⟨500, none, "", ""⟩ (Or.inr (by decide))
  · exact livecheck_status_normalization.2.2.2.2 ⟨206, none, "", ""⟩ (by decide) (by decide)
      (by decide)

/-! ## C8 — empty template id handling -/

/-- C8 (amended): `getTemplate` with an empty template URL rejects
locally with a 404-shaped error whose message mentions
`Template not found`, and no request is issued; but `getTemplateById`
with an empty id builds the URL `baseUrl + '/v1/templates/'`, which
passes both the emptiness check and the URL verification, so network
requests *are* issued. -/
theorem getTemplate_empty_id :
    (∀ cfg b, getTemplatePlan cfg "" b
        = .error ⟨some 404, "Template not found! Empty template ID provided."⟩)
    ∧ jsIncludes "Template not found! Empty template ID provided." "Template not found" = true
    ∧ getTemplateByIdPlan (mkConfig "tok" RawOptions.empty) "" false
        = .ok [⟨"GET", "https://stereotype.trdlnk.cimpress.io/v1/templates/",
                [("Authorization", "Bearer tok"), ("Accept", "application/json")], ""⟩,
               ⟨"GET", "https://stereotype.trdlnk.cimpress.io/v1/templates/",
                [("Authorization", "Bearer tok")], ""⟩] := by
  refine ⟨?_, by decide, rfl⟩
  intro cfg b
  simp [getTemplatePlan]

/-- C8 counterexample: `getTemplateById` with the empty id does not
reject locally — its plan succeeds and issues requests. -/
theorem getTemplate_empty_id_counterexample :
    (getTemplateByIdPlan (mkConfig "tok" RawOptions.empty) "" false).isOk = true := by
  rfl

/-! ## C9 — expand retry behaviour -/

/-- C9 (amended): `expand` retries exactly when the error is an HTTP 400
whose body contains `ESOCKETTIMEDOUT` and the configured `numRetries`
is positive; `numRetries` is never decremented, so the number of
attempts is one per consecutive matching error plus the final
non-matching attempt — with a positive retry configuration, `k`
consecutive timeout errors produce `k + 1` attempts for *every* `k`,
unbounded by the configured budget; a non-matching error (or a zero
retry configuration) propagates immediately. -/
theorem expand_retry_behaviour :
    (∀ (nr : Nat) (rest : List ExpandResp) (status : Nat) (bodyText : String),
       ¬ expandRetries nr status bodyText →
         expandOutcome nr (.err status bodyText :: rest) = .rejected status
         ∧ expandAttempts nr (.err status bodyText :: rest) = 1)
    ∧ (∀ (nr : Nat) (rest : List ExpandResp) (bodyText : String),
       0 < nr → isTimeoutErrorText bodyText = true →
         expandAttempts nr (.err 400 bodyText :: rest) = 1 + expandAttempts nr rest
         ∧ expandOutcome nr (.err 400 bodyText :: rest) = expandOutcome nr rest)
    ∧ (∀ (nr k : Nat) (bodyText t : String),
       0 < nr → isTimeoutErrorText bodyText = true →
         expandAttempts nr (List.replicate k (.err 400 bodyText) ++ [.ok t]) = k + 1) := by
  have hretry : ∀ (nr : Nat) (bodyText : String), 0 < nr → isTimeoutErrorText bodyText = true →
      expandRetries nr 400 bodyText := by
    intro nr bodyText h1 h2
    exact ⟨rfl, h1, h2⟩
  refine ⟨?_, ?_, ?_⟩
  · intro nr rest status bodyText h
    constructor <;> simp [expandOutcome, expandAttempts, h]
  · intro nr rest bodyText h1 h2
    constructor <;> simp [expandOutcome, expandAttempts, hretry nr bodyText h1 h2]
  · intro nr k bodyText t h1 h2
    induction k with
    | zero => simp [expandAttempts]
    | succ n ih =>
        rw [List.replicate_succ, List.cons_append]
        simp only [expandAttempts, if_pos (hretry nr bodyText h1 h2)]
        omega

/-- C9 counterexample: with `numRetries = 1` (a budget of one retry,
and *a fortiori* against the claim's "single handcrafted retry"), three
consecutive 400/ESOCKETTIMEDOUT responses are all retried, giving four
attempts — the recursion is not bounded by the configured budget. -/
theorem expand_retry_behaviour_counterexample :
    expandAttempts 1 [.err 400 "ESOCKETTIMEDOUT", .err 400 "ESOCKETTIMEDOUT",
        .err 400 "ESOCKETTIMEDOUT", .ok "done"] = 4
    ∧ ¬ (4 ≤ 1 + 1) := by
  exact ⟨by decide, by decide⟩

/-- Witness for C9 at a concrete retry trace. -/
theorem expand_retry_behaviour_witness :
    (expandOutcome 3 [.err 500 "boom"] = .rejected 500
     ∧ expandAttempts 3 [.err 500 "boom"] = 1)
    ∧ expandAttempts 3 (List.replicate 2 (.err 400 "x ESOCKETTIMEDOUT y") ++ [.ok "t"]) = 2 + 1 := by
  refine ⟨expand_retry_behaviour.1 3 [] 500 "boom" ?_, ?_⟩
  · intro h
    exact absurd h.1 (by decide)
  · exact expand_retry_behaviour.2.2 3 2 "x ESOCKETTIMEDOUT y" "t" (by decide) (by decide)

end Stereotype
